import Mathlib

/-!
Shallow embedding of the recipe-ingestion pipeline of the `white-povar`
backend (Python sources under `backend/app/ingestion/` and
`backend/app/api/v1/endpoints/ingestion.py`), together with theorems
settling the specification's claims about it.

Python floats are modelled as exact rationals (`PyRat`, an unreduced
numerator/denominator pair, kept kernel-computable so concrete runs can be
checked by `decide`), Python ints as `Int` (list lengths as `Nat`),
dictionaries as association lists, and the Supabase persistence calls as
explicit oracle parameters returning `Except` values (a `.error` result
models a raised exception in the database client). String handling
(`str.lower`, `str.strip`, `\w`, `\s`) is modelled at the ASCII level,
which covers every string the claims exercise.
-/

namespace Ingestion

/-! ## Exact rational arithmetic for Python floats

The float values flowing through the pipeline are decimal literals and
ratios of small integers, represented exactly. The representation is not
reduced; ordering and value tests are by cross-multiplication, so every
operation evaluates inside the Lean kernel. `den = 0` never arises from
the pipeline's guarded divisions. -/

/-- An exact rational: integer numerator over natural denominator. -/
structure PyRat where
  num : Int
  den : Nat
  deriving DecidableEq, Repr

instance : OfNat PyRat n := ⟨⟨(n : Int), 1⟩⟩

instance : OfScientific PyRat :=
  ⟨fun m sign e => if sign then ⟨(m : Int), 10 ^ e⟩ else ⟨(m : Int) * 10 ^ e, 1⟩⟩

def PyRat.add (a b : PyRat) : PyRat :=
  ⟨a.num * (b.den : Int) + b.num * (a.den : Int), a.den * b.den⟩

def PyRat.mul (a b : PyRat) : PyRat := ⟨a.num * b.num, a.den * b.den⟩

def PyRat.neg (a : PyRat) : PyRat := ⟨-a.num, a.den⟩

/-- Reciprocal, with the sign moved to the numerator so denominators stay
natural. -/
def PyRat.inv (a : PyRat) : PyRat :=
  if 0 ≤ a.num then ⟨(a.den : Int), a.num.toNat⟩ else ⟨-(a.den : Int), a.num.natAbs⟩

/-- Absolute value (`abs` in Python). -/
def PyRat.abs (a : PyRat) : PyRat := ⟨|a.num|, a.den⟩

instance : Add PyRat := ⟨PyRat.add⟩
instance : Mul PyRat := ⟨PyRat.mul⟩
instance : Neg PyRat := ⟨PyRat.neg⟩
instance : Sub PyRat := ⟨fun a b => a + -b⟩
instance : Div PyRat := ⟨fun a b => a * b.inv⟩

instance : LE PyRat := ⟨fun a b => a.num * (b.den : Int) ≤ b.num * (a.den : Int)⟩

instance : LT PyRat := ⟨fun a b => a.num * (b.den : Int) < b.num * (a.den : Int)⟩

instance (a b : PyRat) : Decidable (a ≤ b) :=
  inferInstanceAs (Decidable (a.num * (b.den : Int) ≤ b.num * (a.den : Int)))

instance (a b : PyRat) : Decidable (a < b) :=
  inferInstanceAs (Decidable (a.num * (b.den : Int) < b.num * (a.den : Int)))

instance : Min PyRat := ⟨fun a b => if a ≤ b then a else b⟩

/-- Embed a count (`len(...)` etc.) as a float. -/
def PyRat.ofCount (n : Nat) : PyRat := ⟨(n : Int), 1⟩

/-- The rational value a `PyRat` denotes. -/
def PyRat.toRat (a : PyRat) : ℚ := (a.num : ℚ) / (a.den : ℚ)

/-- Python's `x == 0` / truthiness test on a float value. -/
def PyRat.isZero (a : PyRat) : Bool := a.num == 0

/-- The class `\w` of Python's `re` module restricted to ASCII: letters, digits, underscore. -/
def isWordChar (c : Char) : Bool := c.isAlphanum || c = '_'

/-- Predicate `startsWithL p s` holds when `p` is a leading run of `s` (list version). -/
def startsWithL : List Char → List Char → Bool
  | [], _ => true
  | _ :: _, [] => false
  | p :: ps, c :: cs => p = c && startsWithL ps cs

/-- Python's substring test `pat in s` on character lists. -/
def containsSub (pat : List Char) : List Char → Bool
  | [] => startsWithL pat []
  | c :: rest => startsWithL pat (c :: rest) || containsSub pat rest

/-- Python's substring test `pat in s` on strings. -/
def strContains (s pat : String) : Bool := containsSub pat.toList s.toList

/-- Python's `str.lower()` (ASCII). -/
def pyLower (s : String) : String := String.mk (s.toList.map Char.toLower)

/-- Drop leading and trailing whitespace from a character list. -/
def stripL (s : List Char) : List Char :=
  ((s.dropWhile Char.isWhitespace).reverse.dropWhile Char.isWhitespace).reverse

/-- Python's `str.strip()`: drop leading and trailing whitespace. -/
def pyStrip (s : String) : String := String.mk (stripL s.toList)

/-- Join character-list words with a separator (`sep.join(ws)`). -/
def joinL (sep : List Char) : List (List Char) → List Char
  | [] => []
  | [w] => w
  | w :: ws => w ++ sep ++ joinL sep ws

/-- Python's `s.count(c)` for a single character, as used on descriptions. -/
def countChar (s : String) (c : Char) : Nat := s.toList.count c

/-- Lookup in a dict modelled as an association list, with a default
(`d.get(k, default)`). -/
def dictGetD (m : List (String × PyRat)) (k : String) (d : PyRat) : PyRat :=
  match m.find? (fun p => p.1 == k) with
  | some p => p.2
  | none => d

/-! ## Schemas (`app/schemas/ingestion.py`) -/

/-- Schema `ParsedIngredient` as handed to the validator and the matcher.
`quantity_value` is an optional float, `unit`/`notes` optional strings. -/
structure ParsedIngredient where
  name : String
  quantity_value : Option PyRat := none
  unit : Option String := none
  notes : Option String := none
  deriving DecidableEq, Repr

/-- Schema `ParsedNutrition`: the optional per-serving nutrition block. -/
structure ParsedNutrition where
  calories_per_serving : Option PyRat := none
  protein_g : Option PyRat := none
  carbs_g : Option PyRat := none
  fat_g : Option PyRat := none
  deriving DecidableEq, Repr

/-- Schema `ParsedRecipe` as handed to the validator, deduplicator and processor.
`confidence_scores` is the AI-reported dict; pydantic places no range
constraint on its values. -/
structure ParsedRecipe where
  title : String
  description : String
  cuisine : String
  category : String
  difficulty : Int
  prep_time_minutes : Int
  cook_time_minutes : Int
  servings : Int
  ingredients : List ParsedIngredient
  instructions : List String
  tags : List String := []
  nutrition : Option ParsedNutrition := none
  confidence_scores : List (String × PyRat) := []
  deriving DecidableEq, Repr

/-- Property `total_time_minutes` is the derived property `prep + cook`. -/
def ParsedRecipe.total_time_minutes (r : ParsedRecipe) : Int :=
  r.prep_time_minutes + r.cook_time_minutes

/-! ## Quality validator (`app/ingestion/validation.py`) -/

/-- Embeds `RecipeValidator.dietary_tags`. -/
def dietary_tags : List String :=
  ["vegetarian", "vegan", "gluten-free", "dairy-free", "nut-free",
   "egg-free", "soy-free", "halal", "kosher", "keto", "paleo",
   "low-carb", "low-fat", "low-sodium", "sugar-free"]

/-- Embeds `RecipeValidator.common_cuisines`. -/
def common_cuisines : List String :=
  ["italian", "mexican", "chinese", "indian", "french", "thai",
   "japanese", "mediterranean", "american", "greek", "spanish",
   "korean", "vietnamese", "middle eastern", "british", "german"]

/-- Embeds `RecipeValidator.common_categories`. -/
def common_categories : List String :=
  ["appetizer", "main course", "dessert", "side dish", "soup",
   "salad", "breakfast", "lunch", "dinner", "snack", "beverage",
   "sauce", "marinade", "bread", "pasta"]

/-- Embeds `RecipeValidator._check_critical_issues`: the list of critical issues,
in the order the Python code appends them. -/
def check_critical_issues (r : ParsedRecipe) : List String :=
  let titleIssues :=
    if r.title = "" ∨ (pyStrip r.title).length < 3 then
      ["Title is missing or too short"] else []
  let ingIssues :=
    if r.ingredients = [] then
      ["No ingredients found"]
    else
      (List.range r.ingredients.length).filterMap (fun i =>
        match r.ingredients[i]? with
        | some ing =>
          if ing.name = "" ∨ (pyStrip ing.name).length < 2 then
            some s!"Ingredient {i + 1} has invalid name"
          else none
        | none => none)
  let instIssues :=
    if r.instructions = [] then
      ["No instructions found"]
    else
      (List.range r.instructions.length).filterMap (fun i =>
        match r.instructions[i]? with
        | some inst =>
          if inst = "" ∨ (pyStrip inst).length < 10 then
            some s!"Instruction {i + 1} is too short or empty"
          else none
        | none => none)
  let diffIssues :=
    if r.difficulty < 1 ∨ r.difficulty > 5 then
      ["Difficulty must be between 1 and 5"] else []
  let servIssues :=
    if r.servings < 1 then ["Servings must be at least 1"] else []
  let timeIssues :=
    if r.prep_time_minutes < 0 ∨ r.cook_time_minutes < 0 then
      ["Time values cannot be negative"] else []
  titleIssues ++ ingIssues ++ instIssues ++ diffIssues ++ servIssues ++ timeIssues

/-- Embeds `RecipeValidator._score_description`. -/
def score_description (description : String) : PyRat :=
  if description = "" then 0 else
  let s1 : PyRat := 0.5
  let s2 := if 50 ≤ description.length ∧ description.length ≤ 500 then s1 + 0.2 else s1
  let appetizing := ["delicious", "flavorful", "tender", "crispy", "fresh", "savory", "rich"]
  let s3 := if appetizing.any (fun w => strContains (pyLower description) w) then s2 + 0.2 else s2
  let s4 := if 1 ≤ countChar description '.' then s3 + 0.1 else s3
  min s4 1

/-- Embeds `RecipeValidator._score_ingredients`. -/
def score_ingredients (ingredients : List ParsedIngredient) : PyRat :=
  if ingredients = [] then 0 else
  let s1 : PyRat := 0.5
  let withQty := (ingredients.filter (fun i => i.quantity_value.isSome)).length
  let s2 := if PyRat.ofCount withQty / PyRat.ofCount ingredients.length > 0.7 then s1 + 0.3 else s1
  let reasonable :=
    (ingredients.filter (fun i => i.name.length > 2 ∧ i.name.length < 50)).length
  let s3 := if PyRat.ofCount reasonable / PyRat.ofCount ingredients.length > 0.9 then s2 + 0.2 else s2
  min s3 1

/-- Embeds `RecipeValidator._score_instructions`. -/
def score_instructions (instructions : List String) : PyRat :=
  if instructions = [] then 0 else
  let s1 : PyRat := 0.5
  let avgLen : PyRat := PyRat.ofCount (instructions.map String.length).sum / PyRat.ofCount instructions.length
  let s2 := if 20 ≤ avgLen ∧ avgLen ≤ 200 then s1 + 0.3 else s1
  let actions := ["heat", "cook", "add", "mix", "stir", "bake", "fry", "boil", "simmer"]
  let withActions :=
    (instructions.filter (fun inst => actions.any (fun w => strContains (pyLower inst) w))).length
  let s3 := if PyRat.ofCount withActions / PyRat.ofCount instructions.length > 0.5 then s2 + 0.2 else s2
  min s3 1

/-- Embeds `RecipeValidator._score_cuisine`. -/
def score_cuisine (cuisine : String) : PyRat :=
  if cuisine = "" then 0.5
  else if common_cuisines.contains (pyLower cuisine) then 1
  else if common_cuisines.any (fun c =>
      strContains (pyLower cuisine) c || strContains c (pyLower cuisine)) then 0.8
  else 0.6

/-- Embeds `RecipeValidator._score_category`. -/
def score_category (category : String) : PyRat :=
  if category = "" then 0.5
  else if common_categories.contains (pyLower category) then 1
  else if common_categories.any (fun c =>
      strContains (pyLower category) c || strContains c (pyLower category)) then 0.8
  else 0.6

/-- Embeds `RecipeValidator._score_tags`. -/
def score_tags (tags : List String) : PyRat :=
  if tags = [] then 0.8
  else
    let recognized := (tags.filter (fun t => dietary_tags.contains (pyLower t))).length
    0.6 + (PyRat.ofCount recognized / PyRat.ofCount tags.length) * 0.4

/-- Embeds `RecipeValidator._score_times`. -/
def score_times (prep_time cook_time : Int) : PyRat :=
  let total := prep_time + cook_time
  if total < 5 ∨ total > 480 then 0.5
  else if 10 ≤ total ∧ total ≤ 180 then 1
  else 0.7

/-- Python truthiness of an optional numeric field (`None` and `0` are falsy). -/
def truthyQ (x : Option PyRat) : Bool :=
  match x with
  | some v => !v.isZero
  | none => false

/-- Embeds `RecipeValidator._score_nutrition`. -/
def score_nutrition (n : ParsedNutrition) : PyRat :=
  let s1 : PyRat := 0.5
  let s2 :=
    match n.calories_per_serving with
    | some cal => if ¬cal.isZero = true ∧ 50 ≤ cal ∧ cal ≤ 2000 then s1 + 0.3 else s1
    | none => s1
  let s3 :=
    if truthyQ n.protein_g ∧ truthyQ n.carbs_g ∧ truthyQ n.fat_g ∧
       truthyQ n.calories_per_serving then
      match n.protein_g, n.carbs_g, n.fat_g, n.calories_per_serving with
      | some p, some c, some f, some cal =>
        let calculated := p * 4 + c * 4 + f * 9
        if (calculated - cal).abs / cal < 0.3 then s2 + 0.2 else s2
      | _, _, _, _ => s2
    else s2
  min s3 1

/-- Embeds `RecipeValidator._check_quality_issues`: quality issue list and the
arithmetic-mean quality factor. -/
def check_quality_issues (r : ParsedRecipe) : List String × PyRat :=
  let descS := score_description r.description
  let ingS := score_ingredients r.ingredients
  let instS := score_instructions r.instructions
  let cuiS := score_cuisine r.cuisine
  let catS := score_category r.category
  let tagS := score_tags r.tags
  let timeS := score_times r.prep_time_minutes r.cook_time_minutes
  let issues :=
    (if descS < 0.7 then ["Description quality could be improved"] else []) ++
    (if ingS < 0.7 then ["Some ingredients may need clarification"] else []) ++
    (if instS < 0.7 then ["Instructions could be more detailed"] else []) ++
    (if cuiS < 0.8 then [s!"Unusual cuisine type: {r.cuisine}"] else []) ++
    (if catS < 0.8 then [s!"Unusual category: {r.category}"] else []) ++
    (if tagS < 0.8 then ["Some tags may not be recognized"] else []) ++
    (if timeS < 0.7 then ["Cooking times seem unusual"] else [])
  match r.nutrition with
  | some n =>
    let nutS := score_nutrition n
    let issues := issues ++
      (if nutS < 0.7 then ["Nutrition information seems inconsistent"] else [])
    (issues, (descS + ingS + instS + cuiS + catS + tagS + timeS + nutS) / 8)
  | none =>
    (issues, (descS + ingS + instS + cuiS + catS + tagS + timeS) / 7)

/-- Embeds `RecipeValidator.validate_recipe`: `(is_valid, issues, confidence_score)`.
Critical issues short-circuit to `(False, critical, 0.0)`; otherwise
`is_valid` is `not needs_review` where
`needs_review = confidence < 0.75 or len(issues) > 3`. -/
def validate_recipe (r : ParsedRecipe) : Bool × List String × PyRat :=
  let critical := check_critical_issues r
  if critical ≠ [] then (false, critical, 0)
  else
    let (qualityIssues, qualityScore) := check_quality_issues r
    let baseConfidence := dictGetD r.confidence_scores "overall" 0.8
    let finalConfidence := min (baseConfidence * qualityScore) 1
    let needsReview := finalConfidence < 0.75 ∨ qualityIssues.length > 3
    (!needsReview, qualityIssues, finalConfidence)

/-! ## Deduplicator (`app/ingestion/dedupe.py`) -/

/-- Embeds `RecipeDeduplicator.similarity_threshold`. -/
def similarity_threshold : PyRat := 0.85

/-- Embeds `RecipeDeduplicator.time_tolerance_minutes`. -/
def time_tolerance_minutes : Int := 15

/-- Embeds `RecipeProcessor.max_retries`. -/
def max_retries : Int := 3

/-- Boundary `\b` holds after a matched word when the string ends or the next
character is a non-word character. -/
def boundaryAfter : List Char → Bool
  | [] => true
  | c :: _ => !isWordChar c

/-- Models `re.sub(rf'\b{w}\b', '', s)` for a word `w` made of word characters:
scan the string, removing each non-overlapping whole-word occurrence.
`p` records whether the previous character of the original string is a
word character, so at a candidate position `\b` holds exactly when `!p`.
Fuel-based structural recursion; `fuel = s.length` always suffices because
every step consumes at least one character. -/
def subWordAux (w : List Char) : Nat → Bool → List Char → List Char
  | 0, _, s => s
  | _ + 1, _, [] => []
  | fuel + 1, p, c :: rest =>
    if !p && !w.isEmpty && startsWithL w (c :: rest) &&
        boundaryAfter (List.drop w.length (c :: rest)) then
      subWordAux w fuel true (List.drop w.length (c :: rest))
    else
      c :: subWordAux w fuel (isWordChar c) rest

/-- Remove whole-word occurrences of `w` from `s` (one `re.sub` call of
`_normalize_text`). -/
def removeWord (s : List Char) (w : String) : List Char :=
  subWordAux w.toList s.length false s

/-- The `stop_words` list of `_normalize_text`. -/
def stop_words : List String :=
  ["recipe", "easy", "quick", "simple", "best", "perfect", "homemade"]

/-- Python `s.split()`: split on runs of whitespace, dropping empty pieces. -/
def splitWsAux : List Char → List Char → List (List Char)
  | [], acc => if acc.isEmpty then [] else [acc.reverse]
  | c :: rest, acc =>
    if c.isWhitespace then
      if acc.isEmpty then splitWsAux rest [] else acc.reverse :: splitWsAux rest []
    else splitWsAux rest (c :: acc)

/-- Python `s.split()` on a string. -/
def pySplit (s : String) : List String :=
  (splitWsAux s.toList []).map fun w => String.mk w

/-- Embeds `RecipeDeduplicator._normalize_text`: lowercase, remove stop words as
whole words, strip `[^\w\s]`, collapse whitespace. -/
def normalize_text (text : String) : String :=
  if text = "" then ""
  else
    let n0 := (pyLower text).toList
    let n1 := stop_words.foldl removeWord n0
    let n2 := n1.filter fun c => isWordChar c || c.isWhitespace
    pyStrip (String.mk (joinL [' '] (splitWsAux n2 [])))

/-- Embeds `RecipeDeduplicator._generate_fingerprint`. The Python code SHA-1-hashes
the string `f"{title_norm}|{cuisine_norm}|{total_time}"`; SHA-1 is a fixed
deterministic function, so fingerprint-hash equality is modelled by the
hash pre-image string itself. -/
def generate_fingerprint (r : ParsedRecipe) : String :=
  normalize_text r.title ++ "|" ++ normalize_text r.cuisine ++ "|" ++
    toString r.total_time_minutes

/-- A row of the `recipe_fingerprints` table. -/
structure FingerprintRecord where
  recipe_id : String
  title_normalized : String
  cuisine_normalized : String
  total_time_minutes : Int
  fingerprint_hash : String
  deriving DecidableEq, Repr

/-- The two persistence calls the deduplicator makes, as oracles; an
`.error` result models a raised exception in the database client. -/
structure DedupeOracle where
  find_duplicate_recipes : String → Except String (List FingerprintRecord)
  find_similar_recipes : String → String → Int → Int → Except String (List FingerprintRecord)

/-- Embeds `RecipeDeduplicator._find_exact_duplicate`: first matching `recipe_id`,
with any exception degraded to `None`. -/
def find_exact_duplicate (o : DedupeOracle) (fingerprint_hash : String) : Option String :=
  match o.find_duplicate_recipes fingerprint_hash with
  | .ok (rec :: _) => some rec.recipe_id
  | .ok [] => none
  | .error _ => none

/-- Embeds `RecipeDeduplicator._basic_similarity`: word-set Jaccard ratio, the
in-repo fallback used when `rapidfuzz` is unavailable. -/
def basic_similarity (text1 text2 : String) : PyRat :=
  if text1 = "" ∨ text2 = "" then 0
  else
    let words1 := (pySplit text1).dedup
    let words2 := (pySplit text2).dedup
    if words1 = [] ∨ words2 = [] then 0
    else
      let inter := (words1.filter fun w => words2.contains w).length
      let union := words1.length + (words2.filter fun w => !words1.contains w).length
      if union = 0 then 0 else PyRat.ofCount inter / PyRat.ofCount union

/-- Embeds `RecipeDeduplicator._find_similar_recipes`: fetch candidates by
normalized cuisine and a `±time_tolerance_minutes` window, keep those whose
similarity against the candidate's normalized title reaches the threshold.
`sim` abstracts the similarity scorer (`rapidfuzz.fuzz.partial_ratio / 100`
when importable, `basic_similarity` otherwise); any exception degrades to
`[]`. -/
def find_similar_recipe_ids (o : DedupeOracle) (sim : String → String → PyRat)
    (r : ParsedRecipe) : List String :=
  let title_norm := normalize_text r.title
  let cuisine_norm := normalize_text r.cuisine
  match o.find_similar_recipes title_norm cuisine_norm r.total_time_minutes
      time_tolerance_minutes with
  | .error _ => []
  | .ok data =>
    (data.filter fun c => sim title_norm c.title_normalized ≥ similarity_threshold).map
      fun c => c.recipe_id

/-- Embeds `RecipeDeduplicator.check_duplicates`:
`(is_duplicate, exact_duplicate_id, similar_recipe_ids)`. -/
def check_duplicates (o : DedupeOracle) (sim : String → String → PyRat)
    (r : ParsedRecipe) : Bool × Option String × List String :=
  match find_exact_duplicate o (generate_fingerprint r) with
  | some dupId => (true, some dupId, [])
  | none => (false, none, find_similar_recipe_ids o sim r)

/-- The Supabase queries over a concrete `recipe_fingerprints` table state:
`find_duplicate_recipes` filters on `fingerprint_hash`;
`find_similar_recipes` filters on `cuisine_normalized` equality and
`max 0 (t - tol) ≤ total_time_minutes ≤ t + tol`
(`app/services/database.py`). -/
def tableOracle (db : List FingerprintRecord) : DedupeOracle where
  find_duplicate_recipes := fun h =>
    .ok (db.filter fun rec => rec.fingerprint_hash == h)
  find_similar_recipes := fun _ c t tol =>
    .ok (db.filter fun rec =>
      rec.cuisine_normalized == c &&
      decide (max 0 (t - tol) ≤ rec.total_time_minutes) &&
      decide (rec.total_time_minutes ≤ t + tol))

/-- The row `create_fingerprint_record` upserts once a recipe is durably
persisted. -/
def fingerprint_row (recipe_id : String) (r : ParsedRecipe) : FingerprintRecord where
  recipe_id := recipe_id
  title_normalized := normalize_text r.title
  cuisine_normalized := normalize_text r.cuisine
  total_time_minutes := r.total_time_minutes
  fingerprint_hash := generate_fingerprint r

/-! ## Job orchestrator (`app/ingestion/processor.py`) -/

/-- Enum `IngestionStatus`. -/
inductive IngestionStatus where
  | PENDING
  | PROCESSING
  | NEEDS_REVIEW
  | COMPLETED
  | FAILED
  | DLQ
  | COMPLETED_DUPLICATE
  deriving DecidableEq, Repr

/-- Destination directories of `DirectoryManager.move_file`. -/
inductive FileDest where
  | processed
  | failed
  | dlq
  deriving DecidableEq, Repr

/-- The `meta` blob stored by `RecipeProcessor._send_to_review`:
issues, similar-recipe ids, and the full parsed-recipe snapshot. -/
structure ReviewMeta where
  issues : List String
  similar_recipe_ids : List String
  parsed_recipe : ParsedRecipe
  deriving DecidableEq, Repr

/-- Observable outcome of the branch-and-finalize part of `process_file`:
final job status, file move (if any), meta update (if any), and whether a
recipe row was created. -/
structure PipelineOutcome where
  status : IngestionStatus
  fileMove : Option FileDest
  meta : Option ReviewMeta
  recipe_created : Bool
  result_confidence : Option PyRat
  deriving DecidableEq, Repr

/-- The branch-and-finalize portion of `RecipeProcessor.process_file`,
entered once extraction, language detection, AI parsing, validation and the
duplicate check have all run without an uncaught exception. Priority order:
exact duplicate → COMPLETED_DUPLICATE with the file moved to `processed`;
else `not is_valid or confidence < 0.75 or similar_ids or len(issues) > 3`
→ NEEDS_REVIEW with meta stored and no file move; else the recipe is
created, the job COMPLETED and the file moved to `processed`. -/
def process_file_outcome (o : DedupeOracle) (sim : String → String → PyRat)
    (r : ParsedRecipe) : PipelineOutcome :=
  let (is_valid, issues, confidence_score) := validate_recipe r
  let (is_duplicate, _duplicate_id, similar_ids) := check_duplicates o sim r
  if is_duplicate then
    { status := .COMPLETED_DUPLICATE
      fileMove := some .processed
      meta := none
      recipe_created := false
      result_confidence := none }
  else if ¬is_valid ∨ confidence_score < 0.75 ∨ similar_ids.length > 0 ∨
      issues.length > 3 then
    { status := .NEEDS_REVIEW
      fileMove := none
      meta := some ⟨issues, similar_ids, r⟩
      recipe_created := false
      result_confidence := some confidence_score }
  else
    { status := .COMPLETED
      fileMove := some .processed
      meta := none
      recipe_created := true
      result_confidence := some confidence_score }

/-- The job fields the retry, review and reprocess flows read and write. -/
structure Job where
  status : IngestionStatus
  retries : Int
  error_message : Option String := none
  reviewer_notes : Option String := none
  meta : Option ReviewMeta := none
  deriving DecidableEq, Repr

/-- Embeds `RecipeProcessor._handle_processing_error`: if `retries < max_retries`,
back to PENDING with `retries + 1` and the error recorded, no file move;
otherwise DLQ with the file moved to the `dlq` directory. -/
def handle_processing_error (job : Job) (error_msg : String) : Job × Option FileDest :=
  if job.retries < max_retries then
    ({ job with
       status := .PENDING
       retries := job.retries + 1
       error_message := some error_msg }, none)
  else
    ({ job with
       status := .DLQ
       error_message := some ("Max retries exceeded: " ++ error_msg) }, some .dlq)

/-! ## Job-mutating operations across the system
(`processor.py` and `api/v1/endpoints/ingestion.py`) -/

/-- Enum `ReviewDecision`. -/
inductive ReviewDecision where
  | APPROVED
  | REJECTED
  | NEEDS_REVISION
  deriving DecidableEq, Repr

/-- Every operation that mutates a job's `status`/`retries`:
the processor's own updates, error handling, the review endpoint and the
reprocess endpoint. -/
inductive JobOp where
  | markProcessing
  | finishProcessing (s : IngestionStatus)
  | processError (error_msg : String)
  | review (d : ReviewDecision) (notes : Option String)
  | reprocess (file_exists : Bool)
  deriving DecidableEq, Repr

/-- Python `notes or 'No reason provided'` (empty string is falsy). -/
def notesOrDefault (notes : Option String) : String :=
  match notes with
  | some n => if n = "" then "No reason provided" else n
  | none => "No reason provided"

/-- One job mutation. `none` models an operation the code refuses
(HTTP 400 guard in the endpoints, or a status `_update_job_status` never
writes from the success path). -/
def step (job : Job) : JobOp → Option Job
  | .markProcessing => some { job with status := .PROCESSING }
  | .finishProcessing s =>
    if s = .COMPLETED ∨ s = .COMPLETED_DUPLICATE ∨ s = .NEEDS_REVIEW then
      some { job with status := s }
    else none
  | .processError e => some (handle_processing_error job e).1
  | .review d notes =>
    if job.status ≠ .NEEDS_REVIEW then none
    else
      match d with
      | .APPROVED =>
        if job.meta.isSome then
          some { job with status := .COMPLETED, reviewer_notes := notes }
        else none
      | .REJECTED =>
        some { job with
               status := .FAILED
               reviewer_notes := notes
               error_message := some ("Rejected by reviewer: " ++ notesOrDefault notes) }
      | .NEEDS_REVISION =>
        some { job with status := .PENDING, reviewer_notes := notes, retries := 0 }
  | .reprocess file_exists =>
    if (job.status = .FAILED ∨ job.status = .DLQ) ∧ file_exists then
      some { job with status := .PENDING, retries := 0, error_message := none }
    else none

/-- Run a sequence of operations; a refused operation leaves the job
unchanged. -/
def runOps (job : Job) : List JobOp → Job
  | [] => job
  | op :: rest => runOps ((step job op).getD job) rest

/-! ## Ingredient matcher (`app/ingestion/ingredient_matcher.py`) -/

/-- A row of the `base_ingredients` catalog (aliases `[]` when absent). -/
structure BaseIngredient where
  id : String
  name_en : String
  aliases : List String := []
  deriving DecidableEq, Repr

/-- A row of the `units` catalog. -/
structure UnitRecord where
  id : String
  abbreviation_en : String
  name_en : String
  deriving DecidableEq, Repr

/-- The matcher's two lazily loaded caches (`None` before the first load). -/
structure MatcherCaches where
  base_ingredients_cache : Option (List BaseIngredient)
  units_cache : Option (List UnitRecord)
  deriving DecidableEq, Repr

/-- The catalog tables behind `supabase_service.execute_query`. -/
structure IngredientDB where
  base_ingredients : List BaseIngredient
  units : List UnitRecord

/-- Embeds `IngredientMatcher._load_caches`: each cache is fetched only when still
`None`, otherwise kept as is. -/
def load_caches (db : IngredientDB) (s : MatcherCaches) : MatcherCaches where
  base_ingredients_cache := some (s.base_ingredients_cache.getD db.base_ingredients)
  units_cache := some (s.units_cache.getD db.units)

/-- Embeds `IngredientMatcher.ingredient_normalizations` (insertion order). -/
def ingredient_normalizations : List (String × String) :=
  [("onions", "onion"), ("tomatoes", "tomato"), ("carrots", "carrot"),
   ("potatoes", "potato"), ("garlic cloves", "garlic"), ("cloves garlic", "garlic"),
   ("olive oil", "olive oil"), ("black pepper", "black pepper"),
   ("ground black pepper", "black pepper"), ("fresh parsley", "parsley"),
   ("fresh basil", "basil"), ("parmesan cheese", "parmesan"),
   ("mozzarella cheese", "mozzarella"), ("cheddar cheese", "cheddar"),
   ("ground beef", "ground beef"), ("chicken breast", "chicken breast"),
   ("chicken thighs", "chicken thigh")]

/-- Embeds `IngredientMatcher.unit_normalizations` (exact-key lookup table). -/
def unit_normalizations : List (String × String) :=
  [("tablespoon", "tbsp"), ("tablespoons", "tbsp"), ("tbsp.", "tbsp"),
   ("teaspoon", "tsp"), ("teaspoons", "tsp"), ("tsp.", "tsp"),
   ("gram", "g"), ("grams", "g"), ("gr", "g"),
   ("kilogram", "kg"), ("kilograms", "kg"), ("kilo", "kg"),
   ("milliliter", "ml"), ("milliliters", "ml"), ("millilitre", "ml"),
   ("liter", "l"), ("liters", "l"), ("litre", "l"),
   ("cup", "cup"), ("cups", "cup"),
   ("ounce", "oz"), ("ounces", "oz"),
   ("pound", "lb"), ("pounds", "lb"),
   ("piece", "piece"), ("pieces", "piece"), ("pc", "piece"), ("pcs", "piece"),
   ("clove", "piece"), ("cloves", "piece"),
   ("slice", "piece"), ("slices", "piece")]

/-- Python `str.replace(pat, repl)`: replace all non-overlapping occurrences
left to right (fuel-based; `fuel = s.length` suffices for nonempty `pat`). -/
def replaceAllAux (pat repl : List Char) : Nat → List Char → List Char
  | 0, s => s
  | _ + 1, [] => []
  | fuel + 1, c :: rest =>
    if !pat.isEmpty && startsWithL pat (c :: rest) then
      repl ++ replaceAllAux pat repl fuel (List.drop pat.length (c :: rest))
    else c :: replaceAllAux pat repl fuel rest

/-- Python `s.replace(pat, repl)` on strings. -/
def pyReplace (s pat repl : String) : String :=
  String.mk (replaceAllAux pat.toList repl.toList s.toList.length s.toList)

/-- The unit alternatives of the leading-quantity regex, in alternation
order (Python `re` commits to the first alternative that matches). -/
def qty_units : List String :=
  ["g", "kg", "ml", "l", "cup", "cups", "tbsp", "tsp", "oz", "lb",
   "piece", "pieces", "pc", "pcs", "clove", "cloves"]

/-- Models `re.sub(r'^\d+(\.\d+)?\s*(g|kg|...)?\s*', '', s)`: strip a leading
quantity, optional decimal part, whitespace, optional unit word (first
matching alternative, as a prefix), and trailing whitespace. -/
def dropLeadingQty (s : List Char) : List Char :=
  match s with
  | [] => []
  | c :: _ =>
    if c.isDigit then
      let s1 := s.dropWhile Char.isDigit
      let s2 :=
        match s1 with
        | '.' :: d :: rest => if d.isDigit then rest.dropWhile Char.isDigit else s1
        | _ => s1
      let s3 := s2.dropWhile Char.isWhitespace
      let s4 :=
        match qty_units.find? fun u => startsWithL u.toList s3 with
        | some u => s3.drop u.toList.length
        | none => s3
      s4.dropWhile Char.isWhitespace
    else s

/-- The preparation words `_clean_ingredient_name` removes as whole words. -/
def clean_prep_words : List String :=
  ["fresh", "dried", "chopped", "diced", "minced", "sliced",
   "grated", "ground", "whole", "large", "small", "medium",
   "finely", "roughly", "coarsely"]

/-- Embeds `IngredientMatcher._clean_ingredient_name`. -/
def clean_ingredient_name (name : String) : String :=
  if name = "" then ""
  else
    let clean := pyStrip (pyLower name)
    let c1 := dropLeadingQty clean.toList
    let c2 := clean_prep_words.foldl removeWord c1
    let c3 := c2.filter fun c => !(c = ',' ∨ c = '(' ∨ c = ')')
    let c4 := String.mk (joinL [' '] (splitWsAux c3 []))
    let c5 := ingredient_normalizations.foldl
      (fun acc p => if strContains acc p.1 then pyReplace acc p.1 p.2 else acc) c4
    pyStrip c5

/-- Embeds `IngredientMatcher._find_matching_base_ingredient`: exact name match,
then per-entry substring-either-way or exact alias match, then first
word (length > 2) contained in a catalog name. -/
def find_matching_base_ingredient (cache : Option (List BaseIngredient))
    (clean_name : String) : Option BaseIngredient :=
  match cache with
  | none => none
  | some cacheList =>
    if clean_name = "" ∨ cacheList = [] then none
    else
      match cacheList.find? fun b => pyLower b.name_en == clean_name with
      | some b => some b
      | none =>
        match cacheList.find? fun b =>
            strContains clean_name (pyLower b.name_en) ||
            strContains (pyLower b.name_en) clean_name ||
            b.aliases.any fun a => pyLower a == clean_name with
        | some b => some b
        | none =>
          ((pySplit clean_name).filter fun w => w.length > 2).findSome? fun w =>
            cacheList.find? fun b => strContains (pyLower b.name_en) w

/-- Embeds `IngredientMatcher._find_unit_id`. -/
def find_unit_id (cache : Option (List UnitRecord)) (unit_name : String) :
    Option String :=
  if unit_name = "" then none
  else
    match cache with
    | none => none
    | some cacheList =>
      if cacheList = [] then none
      else
        let n0 := pyStrip (pyLower unit_name)
        let n1 :=
          match unit_normalizations.find? fun p => p.1 == n0 with
          | some p => p.2
          | none => n0
        if n1 = "to taste" ∨ n1 = "taste" then none
        else
          match cacheList.find? fun u =>
              pyLower u.abbreviation_en == n1 || pyLower u.name_en == n1 with
          | some u => some u.id
          | none => none

/-- The preparation words `_extract_preparation_notes` looks for. -/
def extract_prep_words : List String :=
  ["chopped", "diced", "minced", "sliced", "grated", "ground",
   "fresh", "dried", "whole", "large", "small", "medium",
   "finely", "roughly", "coarsely", "to taste", "optional"]

/-- Embeds `IngredientMatcher._extract_preparation_notes`. -/
def extract_preparation_notes (ing : ParsedIngredient) : Option String :=
  let notes0 : List String :=
    match ing.notes with
    | some n => if n = "" then [] else [n]
    | none => []
  let notes1 :=
    match ing.unit with
    | some u =>
      if ["to taste", "pinch", "dash", "handful"].contains (pyLower u) then
        notes0 ++ [u]
      else notes0
    | none => notes0
  let found := extract_prep_words.filter fun w =>
    strContains (pyLower ing.name) w ∧ ¬notes1.contains w
  let notes := notes1 ++ found
  if notes = [] then none else some (String.mk (joinL [',', ' '] (notes.map String.toList)))

/-- A row handed to the `recipe_ingredients` insert; the Python dict's
optional keys are `Option` fields (`none` = key absent). -/
structure IngredientRow where
  display_name : String
  sort_order : Nat
  amount : Option PyRat := none
  unit_id : Option String := none
  preparation_notes : Option String := none
  base_ingredient_id : Option String := none
  deriving DecidableEq, Repr

/-- Embeds `IngredientMatcher._process_single_ingredient` (normal path; the
per-ingredient exception fallback cannot trigger in this total model). -/
def process_single_ingredient (caches : MatcherCaches) (ing : ParsedIngredient)
    (sort_order : Nat) : IngredientRow :=
  let clean_name := clean_ingredient_name ing.name
  let base := find_matching_base_ingredient caches.base_ingredients_cache clean_name
  let unit_id :=
    match ing.unit with
    | some u => if u = "" then none else find_unit_id caches.units_cache u
    | none => none
  let prep := extract_preparation_notes ing
  { display_name := pyStrip ing.name
    sort_order := sort_order
    amount := ing.quantity_value
    unit_id :=
      match unit_id with
      | some uid => if uid = "" then none else some uid
      | none => none
    preparation_notes :=
      match prep with
      | some p => if p = "" then none else some p
      | none => none
    base_ingredient_id := base.map fun b => b.id }

/-- Embeds `IngredientMatcher.process_ingredients`: load the caches if needed, then
map over the ingredients with 1-based sort order. Returns the new cache
state together with the output rows. -/
def process_ingredients (db : IngredientDB) (s : MatcherCaches)
    (parsed_ingredients : List ParsedIngredient) :
    MatcherCaches × List IngredientRow :=
  let s' := load_caches db s
  (s', parsed_ingredients.enum.map fun p =>
    process_single_ingredient s' p.2 (p.1 + 1))

/-! ## Concrete fixtures used by witnesses and counterexamples -/

/-- A structurally sound recipe: no critical issues, but the quality
heuristics leave the final confidence at 0.6 (overall 0.75 × quality 0.8)
with two quality issues, below the 0.75 review threshold. -/
def sampleRecipe : ParsedRecipe where
  title := "Test Dish"
  description := "A plain dish of stuff."
  cuisine := "Italian"
  category := "Dessert"
  difficulty := 3
  prep_time_minutes := 10
  cook_time_minutes := 20
  servings := 2
  ingredients := [{ name := "ab" }]
  instructions := ["Mix and stir it."]
  confidence_scores := [("overall", 0.75)]

/-- Recipe `sampleRecipe` with a negative AI-reported overall confidence
(pydantic places no range constraint on `confidence_scores` values). -/
def negOverallRecipe : ParsedRecipe :=
  { sampleRecipe with confidence_scores := [("overall", ⟨-1, 1⟩)] }

/-- Recipe `sampleRecipe` with a too-short title (a critical issue). -/
def badTitleRecipe : ParsedRecipe := { sampleRecipe with title := "ab" }

/-- The first scenario recipe of the duplicate-detection spec. -/
def easyTomatoPasta : ParsedRecipe :=
  { sampleRecipe with title := "Easy Tomato Pasta" }

/-- The second scenario recipe: same cuisine and total time, title
differing only by filler words. -/
def tomatoPastaEasyRecipe : ParsedRecipe :=
  { sampleRecipe with title := "Tomato Pasta Easy Recipe" }

/-- A persisted fingerprint with the same normalized cuisine and title as
`easyTomatoPasta` but a total time 12 minutes away (42 vs 30) and a
different hash. -/
def nearbyFingerprint : FingerprintRecord where
  recipe_id := "r1"
  title_normalized := "tomato pasta"
  cuisine_normalized := "italian"
  total_time_minutes := 42
  fingerprint_hash := "other-hash"

/-- An oracle whose exact-duplicate lookup raises while the similar fetch
answers from the table `[nearbyFingerprint]`. -/
def failingExactOracle : DedupeOracle where
  find_duplicate_recipes := fun _ => .error "db down"
  find_similar_recipes := (tableOracle [nearbyFingerprint]).find_similar_recipes

/-- An oracle whose two lookups both raise. -/
def failingBothOracle : DedupeOracle where
  find_duplicate_recipes := fun _ => .error "db down"
  find_similar_recipes := fun _ _ _ _ => .error "db down"

/-- A job in flight whose retries already equal `max_retries`. -/
def jobAtCap : Job := { status := .PROCESSING, retries := 3 }

/-- The job a further failure at the cap produces. -/
def jobInDLQ : Job :=
  { status := .DLQ, retries := 3, error_message := some "Max retries exceeded: boom" }

/-- The job after the reprocess endpoint accepts a DLQ job. -/
def jobReset : Job := { status := .PENDING, retries := 0 }

/-- A fresh job before its first processing attempt. -/
def freshJob : Job := { status := .PENDING, retries := 0 }

/-! ## Value correspondence for `PyRat` -/

theorem PyRat.toRat_mk (n : Int) (d : Nat) :
    (PyRat.mk n d).toRat = (n : ℚ) / (d : ℚ) := rfl

theorem PyRat.toRat_zero : (0 : PyRat).toRat = 0 := by
  show (PyRat.mk 0 1).toRat = 0
  norm_num [PyRat.toRat_mk]

theorem PyRat.toRat_one : (1 : PyRat).toRat = 1 := by
  show (PyRat.mk 1 1).toRat = 1
  norm_num [PyRat.toRat_mk]

theorem PyRat.toRat_ofCount (n : Nat) : (PyRat.ofCount n).toRat = (n : ℚ) := by
  simp [PyRat.ofCount, PyRat.toRat]

theorem PyRat.add_den (a b : PyRat) : (a + b).den = a.den * b.den := rfl

theorem PyRat.mul_den (a b : PyRat) : (a * b).den = a.den * b.den := rfl

theorem PyRat.le_iff (a b : PyRat) (ha : 0 < a.den) (hb : 0 < b.den) :
    a ≤ b ↔ a.toRat ≤ b.toRat := by
  show a.num * (b.den : Int) ≤ b.num * (a.den : Int) ↔ _
  rw [PyRat.toRat, PyRat.toRat,
    div_le_div_iff₀ (by exact_mod_cast ha) (by exact_mod_cast hb)]
  constructor
  · intro h; exact_mod_cast h
  · intro h; exact_mod_cast h

theorem PyRat.lt_iff (a b : PyRat) (ha : 0 < a.den) (hb : 0 < b.den) :
    a < b ↔ a.toRat < b.toRat := by
  show a.num * (b.den : Int) < b.num * (a.den : Int) ↔ _
  rw [PyRat.toRat, PyRat.toRat,
    div_lt_div_iff₀ (by exact_mod_cast ha) (by exact_mod_cast hb)]
  constructor
  · intro h; exact_mod_cast h
  · intro h; exact_mod_cast h

theorem PyRat.toRat_add (a b : PyRat) (ha : a.den ≠ 0) (hb : b.den ≠ 0) :
    (a + b).toRat = a.toRat + b.toRat := by
  show (PyRat.add a b).toRat = _
  have ha' : ((a.den : ℚ)) ≠ 0 := by exact_mod_cast ha
  have hb' : ((b.den : ℚ)) ≠ 0 := by exact_mod_cast hb
  rw [PyRat.add, PyRat.toRat, PyRat.toRat, PyRat.toRat]
  dsimp only
  push_cast
  field_simp
  try ring

theorem PyRat.toRat_mul (a b : PyRat) :
    (a * b).toRat = a.toRat * b.toRat := by
  show (PyRat.mul a b).toRat = _
  rw [PyRat.mul, PyRat.toRat, PyRat.toRat, PyRat.toRat]
  dsimp only
  push_cast
  rw [div_mul_div_comm]

theorem PyRat.toRat_inv (a : PyRat) : a.inv.toRat = a.toRat⁻¹ := by
  rcases a with ⟨n, d⟩
  rw [PyRat.inv]
  split_ifs with h
  · rw [PyRat.toRat_mk, PyRat.toRat_mk, inv_div]
    congr 1
    exact_mod_cast Int.toNat_of_nonneg h
  · rw [PyRat.toRat_mk, PyRat.toRat_mk, inv_div]
    push_cast
    rw [Int.cast_natAbs]
    push_cast
    rw [abs_of_neg (by exact_mod_cast not_le.mp h)]
    rw [div_neg, neg_div, neg_neg]

theorem PyRat.toRat_div (a b : PyRat) :
    (a / b).toRat = a.toRat / b.toRat := by
  show (a * b.inv).toRat = _
  rw [PyRat.toRat_mul, PyRat.toRat_inv, div_eq_mul_inv]

theorem PyRat.toRat_min (a b : PyRat) (ha : 0 < a.den) (hb : 0 < b.den) :
    (min a b).toRat = min a.toRat b.toRat := by
  show (if a ≤ b then a else b).toRat = _
  split_ifs with h
  · rw [min_eq_left ((PyRat.le_iff a b ha hb).mp h)]
  · have h'' : ¬(a.num * (b.den : Int) ≤ b.num * (a.den : Int)) := h
    have h' : b ≤ a := le_of_lt (not_le.mp h'')
    rw [min_eq_right ((PyRat.le_iff b a hb ha).mp h')]

theorem PyRat.toRat_nonneg (a : PyRat) (ha : 0 < a.den) (h : (0 : PyRat) ≤ a) :
    0 ≤ a.toRat := by
  have := (PyRat.le_iff 0 a (by decide) ha).mp h
  rwa [PyRat.toRat_zero] at this

theorem PyRat.toRat_le_one (a : PyRat) (ha : 0 < a.den) (h : a ≤ (1 : PyRat)) :
    a.toRat ≤ 1 := by
  have := (PyRat.le_iff a 1 ha (by decide)).mp h
  rwa [PyRat.toRat_one] at this

/-! ## Bounds of the quality heuristics -/

theorem PyRat.den_pos_add {a b : PyRat} (ha : 0 < a.den) (hb : 0 < b.den) :
    0 < (a + b).den := by
  rw [PyRat.add_den]; exact Nat.mul_pos ha hb

theorem PyRat.den_pos_mul {a b : PyRat} (ha : 0 < a.den) (hb : 0 < b.den) :
    0 < (a * b).den := by
  rw [PyRat.mul_den]; exact Nat.mul_pos ha hb

/-- Bundled bounds: positive denominator and value in `[0, 1]`. -/
def PyRat.InUnit (a : PyRat) : Prop :=
  0 < a.den ∧ 0 ≤ a.toRat ∧ a.toRat ≤ 1

theorem score_description_bounds (d : String) : (score_description d).InUnit := by
  unfold score_description
  dsimp only
  split_ifs <;>
    exact ⟨by decide, PyRat.toRat_nonneg _ (by decide) (by decide),
      PyRat.toRat_le_one _ (by decide) (by decide)⟩

theorem score_ingredients_bounds (l : List ParsedIngredient) :
    (score_ingredients l).InUnit := by
  unfold score_ingredients
  dsimp only
  split_ifs <;>
    exact ⟨by decide, PyRat.toRat_nonneg _ (by decide) (by decide),
      PyRat.toRat_le_one _ (by decide) (by decide)⟩

theorem score_instructions_bounds (l : List String) :
    (score_instructions l).InUnit := by
  unfold score_instructions
  dsimp only
  split_ifs <;>
    exact ⟨by decide, PyRat.toRat_nonneg _ (by decide) (by decide),
      PyRat.toRat_le_one _ (by decide) (by decide)⟩

theorem score_cuisine_bounds (c : String) : (score_cuisine c).InUnit := by
  unfold score_cuisine
  split_ifs <;>
    exact ⟨by decide, PyRat.toRat_nonneg _ (by decide) (by decide),
      PyRat.toRat_le_one _ (by decide) (by decide)⟩

theorem score_category_bounds (c : String) : (score_category c).InUnit := by
  unfold score_category
  split_ifs <;>
    exact ⟨by decide, PyRat.toRat_nonneg _ (by decide) (by decide),
      PyRat.toRat_le_one _ (by decide) (by decide)⟩

theorem score_times_bounds (p c : Int) : (score_times p c).InUnit := by
  unfold score_times
  dsimp only
  split_ifs <;>
    exact ⟨by decide, PyRat.toRat_nonneg _ (by decide) (by decide),
      PyRat.toRat_le_one _ (by decide) (by decide)⟩

theorem score_nutrition_bounds (n : ParsedNutrition) :
    (score_nutrition n).InUnit := by
  unfold score_nutrition
  dsimp only
  repeat' split
  all_goals
    exact ⟨by decide, PyRat.toRat_nonneg _ (by decide) (by decide),
      PyRat.toRat_le_one _ (by decide) (by decide)⟩

theorem score_tags_bounds (t : List String) : (score_tags t).InUnit := by
  unfold score_tags
  split_ifs with h
  · exact ⟨by decide, PyRat.toRat_nonneg _ (by decide) (by decide),
      PyRat.toRat_le_one _ (by decide) (by decide)⟩
  · have hlen : 0 < t.length := List.length_pos.mpr h
    have hfil : (t.filter fun s => dietary_tags.contains (pyLower s)).length ≤ t.length :=
      List.length_filter_le _ _
    set m := (t.filter fun s => dietary_tags.contains (pyLower s)).length with hm
    have hratio :
        (PyRat.ofCount m / PyRat.ofCount t.length).toRat = (m : ℚ) / (t.length : ℚ) := by
      rw [PyRat.toRat_div, PyRat.toRat_ofCount, PyRat.toRat_ofCount]
    have hratio_den : (PyRat.ofCount m / PyRat.ofCount t.length).den = t.length := by
      show (PyRat.ofCount m * (PyRat.ofCount t.length).inv).den = t.length
      rw [PyRat.mul_den, PyRat.ofCount, PyRat.ofCount, PyRat.inv]
      simp
    have hq0 : (0 : ℚ) ≤ (m : ℚ) / (t.length : ℚ) :=
      div_nonneg (by positivity) (by positivity)
    have hq1 : (m : ℚ) / (t.length : ℚ) ≤ 1 := by
      rw [div_le_one (by exact_mod_cast hlen)]
      exact_mod_cast hfil
    have hden4 : 0 < ((PyRat.ofCount m / PyRat.ofCount t.length) * 0.4).den := by
      rw [PyRat.mul_den, hratio_den]
      exact Nat.mul_pos hlen (by decide)
    refine ⟨PyRat.den_pos_add (by decide) hden4, ?_, ?_⟩ <;>
      rw [PyRat.toRat_add _ _ (by decide) (Nat.pos_iff_ne_zero.mp hden4),
        PyRat.toRat_mul, hratio,
        show ((0.6 : PyRat)).toRat = 3/5 by
          rw [show (0.6 : PyRat) = ⟨6, 10⟩ from rfl, PyRat.toRat_mk]; norm_num,
        show ((0.4 : PyRat)).toRat = 2/5 by
          rw [show (0.4 : PyRat) = ⟨4, 10⟩ from rfl, PyRat.toRat_mk]; norm_num] <;>
      nlinarith [hq0, hq1]

/-- Mean of seven unit-interval values, as computed by
`check_quality_issues` without a nutrition block. -/
theorem PyRat.mean7_bounds {a b c d e f g : PyRat}
    (ha : a.InUnit) (hb : b.InUnit) (hc : c.InUnit) (hd : d.InUnit)
    (he : e.InUnit) (hf : f.InUnit) (hg : g.InUnit) :
    ((a + b + c + d + e + f + g) / 7).InUnit := by
  obtain ⟨ha1, ha2, ha3⟩ := ha
  obtain ⟨hb1, hb2, hb3⟩ := hb
  obtain ⟨hc1, hc2, hc3⟩ := hc
  obtain ⟨hd1, hd2, hd3⟩ := hd
  obtain ⟨he1, he2, he3⟩ := he
  obtain ⟨hf1, hf2, hf3⟩ := hf
  obtain ⟨hg1, hg2, hg3⟩ := hg
  have hs1 := PyRat.den_pos_add ha1 hb1
  have hs2 := PyRat.den_pos_add hs1 hc1
  have hs3 := PyRat.den_pos_add hs2 hd1
  have hs4 := PyRat.den_pos_add hs3 he1
  have hs5 := PyRat.den_pos_add hs4 hf1
  have hs6 := PyRat.den_pos_add hs5 hg1
  have hsum : (a + b + c + d + e + f + g).toRat =
      a.toRat + b.toRat + c.toRat + d.toRat + e.toRat + f.toRat + g.toRat := by
    rw [PyRat.toRat_add _ _ (Nat.pos_iff_ne_zero.mp hs5) (Nat.pos_iff_ne_zero.mp hg1),
      PyRat.toRat_add _ _ (Nat.pos_iff_ne_zero.mp hs4) (Nat.pos_iff_ne_zero.mp hf1),
      PyRat.toRat_add _ _ (Nat.pos_iff_ne_zero.mp hs3) (Nat.pos_iff_ne_zero.mp he1),
      PyRat.toRat_add _ _ (Nat.pos_iff_ne_zero.mp hs2) (Nat.pos_iff_ne_zero.mp hd1),
      PyRat.toRat_add _ _ (Nat.pos_iff_ne_zero.mp hs1) (Nat.pos_iff_ne_zero.mp hc1),
      PyRat.toRat_add _ _ (Nat.pos_iff_ne_zero.mp ha1) (Nat.pos_iff_ne_zero.mp hb1)]
  have hdiv : ((a + b + c + d + e + f + g) / 7).toRat =
      (a + b + c + d + e + f + g).toRat / 7 := by
    rw [PyRat.toRat_div, show ((7 : PyRat)).toRat = 7 by
      rw [show (7 : PyRat) = ⟨7, 1⟩ from rfl, PyRat.toRat_mk]; norm_num]
  refine ⟨?_, ?_, ?_⟩
  · show 0 < ((a + b + c + d + e + f + g) * (PyRat.inv 7)).den
    rw [PyRat.mul_den, show (PyRat.inv 7).den = 7 from rfl]
    exact Nat.mul_pos hs6 (by decide)
  · rw [hdiv, hsum]
    have : (0 : ℚ) ≤ a.toRat + b.toRat + c.toRat + d.toRat + e.toRat + f.toRat + g.toRat := by
      linarith
    positivity
  · rw [hdiv, hsum, div_le_one (by norm_num)]
    linarith

/-- Mean of eight unit-interval values, as computed by
`check_quality_issues` with a nutrition block. -/
theorem PyRat.mean8_bounds {a b c d e f g h : PyRat}
    (ha : a.InUnit) (hb : b.InUnit) (hc : c.InUnit) (hd : d.InUnit)
    (he : e.InUnit) (hf : f.InUnit) (hg : g.InUnit) (hh : h.InUnit) :
    ((a + b + c + d + e + f + g + h) / 8).InUnit := by
  obtain ⟨ha1, ha2, ha3⟩ := ha
  obtain ⟨hb1, hb2, hb3⟩ := hb
  obtain ⟨hc1, hc2, hc3⟩ := hc
  obtain ⟨hd1, hd2, hd3⟩ := hd
  obtain ⟨he1, he2, he3⟩ := he
  obtain ⟨hf1, hf2, hf3⟩ := hf
  obtain ⟨hg1, hg2, hg3⟩ := hg
  obtain ⟨hh1, hh2, hh3⟩ := hh
  have hs1 := PyRat.den_pos_add ha1 hb1
  have hs2 := PyRat.den_pos_add hs1 hc1
  have hs3 := PyRat.den_pos_add hs2 hd1
  have hs4 := PyRat.den_pos_add hs3 he1
  have hs5 := PyRat.den_pos_add hs4 hf1
  have hs6 := PyRat.den_pos_add hs5 hg1
  have hs7 := PyRat.den_pos_add hs6 hh1
  have hsum : (a + b + c + d + e + f + g + h).toRat =
      a.toRat + b.toRat + c.toRat + d.toRat + e.toRat + f.toRat + g.toRat + h.toRat := by
    rw [PyRat.toRat_add _ _ (Nat.pos_iff_ne_zero.mp hs6) (Nat.pos_iff_ne_zero.mp hh1),
      PyRat.toRat_add _ _ (Nat.pos_iff_ne_zero.mp hs5) (Nat.pos_iff_ne_zero.mp hg1),
      PyRat.toRat_add _ _ (Nat.pos_iff_ne_zero.mp hs4) (Nat.pos_iff_ne_zero.mp hf1),
      PyRat.toRat_add _ _ (Nat.pos_iff_ne_zero.mp hs3) (Nat.pos_iff_ne_zero.mp he1),
      PyRat.toRat_add _ _ (Nat.pos_iff_ne_zero.mp hs2) (Nat.pos_iff_ne_zero.mp hd1),
      PyRat.toRat_add _ _ (Nat.pos_iff_ne_zero.mp hs1) (Nat.pos_iff_ne_zero.mp hc1),
      PyRat.toRat_add _ _ (Nat.pos_iff_ne_zero.mp ha1) (Nat.pos_iff_ne_zero.mp hb1)]
  have hdiv : ((a + b + c + d + e + f + g + h) / 8).toRat =
      (a + b + c + d + e + f + g + h).toRat / 8 := by
    rw [PyRat.toRat_div, show ((8 : PyRat)).toRat = 8 by
      rw [show (8 : PyRat) = ⟨8, 1⟩ from rfl, PyRat.toRat_mk]; norm_num]
  refine ⟨?_, ?_, ?_⟩
  · show 0 < ((a + b + c + d + e + f + g + h) * (PyRat.inv 8)).den
    rw [PyRat.mul_den, show (PyRat.inv 8).den = 8 from rfl]
    exact Nat.mul_pos hs7 (by decide)
  · rw [hdiv, hsum]
    have : (0 : ℚ) ≤ a.toRat + b.toRat + c.toRat + d.toRat + e.toRat + f.toRat +
        g.toRat + h.toRat := by linarith
    positivity
  · rw [hdiv, hsum, div_le_one (by norm_num)]
    linarith

/-- The quality factor of `_check_quality_issues` is a mean of unit-interval
scores, hence itself in `[0, 1]` with a positive denominator. -/
theorem check_quality_score_bounds (r : ParsedRecipe) :
    (check_quality_issues r).2.InUnit := by
  unfold check_quality_issues
  dsimp only
  rcases r.nutrition with _ | n
  · exact PyRat.mean7_bounds (score_description_bounds _) (score_ingredients_bounds _)
      (score_instructions_bounds _) (score_cuisine_bounds _) (score_category_bounds _)
      (score_tags_bounds _) (score_times_bounds _ _)
  · exact PyRat.mean8_bounds (score_description_bounds _) (score_ingredients_bounds _)
      (score_instructions_bounds _) (score_cuisine_bounds _) (score_category_bounds _)
      (score_tags_bounds _) (score_times_bounds _ _) (score_nutrition_bounds _)

/-! ## Claim theorems -/

/-- C1: when the pipeline reaches the duplicate check without an exception
and the deduplicator reports no exact duplicate, `process_file` routes the
job to NEEDS_REVIEW exactly when `not is_valid`, or the confidence score is
below 0.75, or `similar_ids` is non-empty, or more than 3 issues were
reported; otherwise the recipe is created and the job is COMPLETED. -/
theorem process_file_review_routing (o : DedupeOracle)
    (sim : String → String → PyRat) (r : ParsedRecipe)
    (hnodup : (check_duplicates o sim r).1 = false) :
    ((process_file_outcome o sim r).status = .NEEDS_REVIEW ↔
      ((validate_recipe r).1 = false ∨ (validate_recipe r).2.2 < 0.75 ∨
        (check_duplicates o sim r).2.2 ≠ [] ∨ (validate_recipe r).2.1.length > 3)) ∧
    (¬((validate_recipe r).1 = false ∨ (validate_recipe r).2.2 < 0.75 ∨
        (check_duplicates o sim r).2.2 ≠ [] ∨ (validate_recipe r).2.1.length > 3) →
      (process_file_outcome o sim r).status = .COMPLETED ∧
      (process_file_outcome o sim r).recipe_created = true) := by
  rcases hv : validate_recipe r with ⟨v, iss, conf⟩
  rcases hd : check_duplicates o sim r with ⟨dup, dupId, sims⟩
  rw [hd] at hnodup
  dsimp only at hnodup
  subst hnodup
  unfold process_file_outcome
  rw [hv, hd]
  dsimp only
  rw [if_neg (by simp)]
  split_ifs with hc
  · constructor
    · simp only [true_iff]
      rcases hc with h | h | h | h
      · exact Or.inl (by simpa using h)
      · exact Or.inr (Or.inl h)
      · exact Or.inr (Or.inr (Or.inl (by simpa [← List.length_pos] using h)))
      · exact Or.inr (Or.inr (Or.inr h))
    · intro hnc
      exfalso
      apply hnc
      rcases hc with h | h | h | h
      · exact Or.inl (by simpa using h)
      · exact Or.inr (Or.inl h)
      · exact Or.inr (Or.inr (Or.inl (by simpa [← List.length_pos] using h)))
      · exact Or.inr (Or.inr (Or.inr h))
  · constructor
    · simp only [reduceCtorEq, false_iff]
      intro hcon
      apply hc
      rcases hcon with h | h | h | h
      · exact Or.inl (by simpa using h)
      · exact Or.inr (Or.inl h)
      · exact Or.inr (Or.inr (Or.inl (by simpa [List.length_pos] using h)))
      · exact Or.inr (Or.inr (Or.inr h))
    · intro _
      exact ⟨rfl, rfl⟩

/-- C1 witness: a recipe with no critical issue, validator confidence 0.6
(below 0.75) and no similar recipes is routed to NEEDS_REVIEW. -/
theorem process_file_review_routing_witness :
    (check_duplicates (tableOracle []) basic_similarity sampleRecipe).1 = false ∧
    (((process_file_outcome (tableOracle []) basic_similarity sampleRecipe).status =
        .NEEDS_REVIEW ↔
      ((validate_recipe sampleRecipe).1 = false ∨
        (validate_recipe sampleRecipe).2.2 < 0.75 ∨
        (check_duplicates (tableOracle []) basic_similarity sampleRecipe).2.2 ≠ [] ∨
        (validate_recipe sampleRecipe).2.1.length > 3))) ∧
    check_critical_issues sampleRecipe = [] ∧
    (validate_recipe sampleRecipe).2.2 < 0.75 ∧
    (process_file_outcome (tableOracle []) basic_similarity sampleRecipe).status =
      .NEEDS_REVIEW :=
  ⟨by decide,
    (process_file_review_routing (tableOracle []) basic_similarity sampleRecipe
      (by decide)).1,
    by decide, by decide, by decide⟩

/-- C2: `_handle_processing_error` retries (PENDING, `retries + 1`, error
recorded, file untouched) while `retries < max_retries`, and otherwise
moves the job to DLQ and the file to the `dlq` directory. -/
theorem handle_processing_error_retry_or_dlq (job : Job) (e : String) :
    (job.retries < max_retries →
      handle_processing_error job e =
        ({ job with
            status := .PENDING
            retries := job.retries + 1
            error_message := some e }, none)) ∧
    (¬job.retries < max_retries →
      (handle_processing_error job e).1.status = .DLQ ∧
      (handle_processing_error job e).1.retries = job.retries ∧
      (handle_processing_error job e).2 = some .dlq) := by
  unfold handle_processing_error
  constructor <;> intro h <;> simp [h]

/-- C2 witness: at `retries = 3 = max_retries` a further failure ends in
DLQ with the file moved to the `dlq` directory. -/
theorem handle_processing_error_retry_or_dlq_witness :
    ¬jobAtCap.retries < max_retries ∧
    (handle_processing_error jobAtCap "boom").1.status = .DLQ ∧
    (handle_processing_error jobAtCap "boom").1.retries = jobAtCap.retries ∧
    (handle_processing_error jobAtCap "boom").2 = some .dlq :=
  ⟨by decide, (handle_processing_error_retry_or_dlq jobAtCap "boom").2 (by decide)⟩

/-- C3 counterexample: a job that reached DLQ at `retries = max_retries`
through a further failure is moved back to PENDING with `retries = 0` by
the reprocess endpoint — so retries are not monotone and DLQ is not
terminal across the system's operations. -/
theorem retries_monotone_counterexample :
    jobAtCap.retries = max_retries ∧
    step jobAtCap (.processError "boom") = some jobInDLQ ∧
    jobInDLQ.status = .DLQ ∧
    step jobInDLQ (.reprocess true) = some jobReset ∧
    jobReset.status = .PENDING ∧
    jobReset.retries = 0 ∧
    jobReset.retries < jobInDLQ.retries := by decide

/-- Any single operation keeps `retries` within `max_retries`. -/
theorem step_retries_bound (j : Job) (op : JobOp) (h : j.retries ≤ max_retries) :
    ((step j op).getD j).retries ≤ max_retries := by
  cases op with
  | markProcessing => exact h
  | finishProcessing s =>
    unfold step
    dsimp only
    split_ifs <;> exact h
  | processError e =>
    show ((handle_processing_error j e).1).retries ≤ max_retries
    unfold handle_processing_error
    split_ifs with hr
    · show j.retries + 1 ≤ max_retries
      unfold max_retries at hr ⊢
      omega
    · exact h
  | review d notes =>
    cases d with
    | APPROVED =>
      unfold step
      dsimp only
      split_ifs <;> exact h
    | REJECTED =>
      unfold step
      dsimp only
      split_ifs <;> exact h
    | NEEDS_REVISION =>
      unfold step
      dsimp only
      split_ifs
      · exact h
      · show (0 : Int) ≤ max_retries
        decide
  | reprocess fe =>
    unfold step
    dsimp only
    split_ifs
    · show (0 : Int) ≤ max_retries
      decide
    · exact h

/-- C3 amended: `retries ≤ max_retries` holds along every operation
sequence, and the error handler alone never decreases `retries`; but the
review NEEDS_REVISION decision and the reprocess endpoint reset `retries`
to 0, and reprocess is exactly the operation that moves a DLQ job (at the
cap) back to PENDING. -/
theorem retries_bounded_and_dlq_exit_amended :
    (∀ (j : Job) (ops : List JobOp), j.retries ≤ max_retries →
      (runOps j ops).retries ≤ max_retries) ∧
    (∀ (j : Job) (e : String),
      j.retries ≤ (handle_processing_error j e).1.retries) ∧
    (∀ (j j' : Job) (op : JobOp), step j op = some j' → j.status = .DLQ →
      j.retries = max_retries → j'.status = .PENDING →
      op = .reprocess true ∧ j'.retries = 0) := by
  refine ⟨?_, ?_, ?_⟩
  · intro j ops
    induction ops generalizing j with
    | nil => exact fun h => h
    | cons op rest ih => exact fun h => ih _ (step_retries_bound j op h)
  · intro j e
    unfold handle_processing_error
    split_ifs
    · show j.retries ≤ j.retries + 1
      omega
    · exact le_refl _
  · intro j j' op hstep hdlq hcap hpend
    cases op with
    | markProcessing =>
      unfold step at hstep
      dsimp only at hstep
      injection hstep with hj
      rw [← hj] at hpend
      simp at hpend
    | finishProcessing s =>
      unfold step at hstep
      dsimp only at hstep
      split_ifs at hstep with hs
      injection hstep with hj
      rw [← hj] at hpend
      dsimp only at hpend
      subst hpend
      rcases hs with h | h | h <;> simp at h
    | processError e =>
      unfold step at hstep
      dsimp only at hstep
      injection hstep with hj
      rw [← hj] at hpend
      unfold handle_processing_error at hpend
      rw [if_neg (by rw [hcap]; omega)] at hpend
      simp at hpend
    | review d notes =>
      unfold step at hstep
      dsimp only at hstep
      rw [if_pos (by rw [hdlq]; simp)] at hstep
      simp at hstep
    | reprocess fe =>
      unfold step at hstep
      dsimp only at hstep
      split_ifs at hstep with hg
      injection hstep with hj
      refine ⟨?_, ?_⟩
      · rcases hg with ⟨_, hfe⟩
        rw [hfe]
      · rw [← hj]

/-- C3 amended witness: a fresh job driven through processing, four
failures and a reprocess stays within the retry bound. -/
theorem retries_bounded_and_dlq_exit_amended_witness :
    freshJob.retries ≤ max_retries ∧
    (runOps freshJob [.markProcessing, .processError "a", .processError "b",
      .processError "c", .processError "d", .reprocess true]).retries ≤
      max_retries :=
  ⟨by decide, retries_bounded_and_dlq_exit_amended.1 freshJob _ (by decide)⟩

/-- C4 counterexample: `confidence_scores` carries an unconstrained
AI-reported value; with `overall = -1` and no critical issue the returned
confidence is negative, outside `[0, 1]`. -/
theorem validator_confidence_range_counterexample :
    check_critical_issues negOverallRecipe = [] ∧
    (validate_recipe negOverallRecipe).2.2 < 0 ∧
    (validate_recipe negOverallRecipe).2.2.toRat < 0 := by
  refine ⟨by decide, by decide, ?_⟩
  have h := (PyRat.lt_iff (validate_recipe negOverallRecipe).2.2 0
    (by decide) (by decide)).mp (by decide)
  rwa [PyRat.toRat_zero] at h

/-- C4 amended: any critical issue yields exactly
`(False, critical_issues, 0.0)`; and whenever the AI-reported overall
confidence is a well-formed nonnegative value (as every Python float the
parser produces is), the returned confidence lies in `[0, 1]`. -/
theorem validator_critical_zero_and_bounds_amended (r : ParsedRecipe)
    (hbase_den : 0 < (dictGetD r.confidence_scores "overall" 0.8).den)
    (hbase_nn : 0 ≤ (dictGetD r.confidence_scores "overall" 0.8).toRat) :
    (check_critical_issues r ≠ [] →
      validate_recipe r = (false, check_critical_issues r, 0)) ∧
    (0 ≤ (validate_recipe r).2.2.toRat ∧ (validate_recipe r).2.2.toRat ≤ 1) := by
  constructor
  · intro hcrit
    unfold validate_recipe
    rw [if_pos hcrit]
  · unfold validate_recipe
    dsimp only
    split_ifs with hcrit
    · rw [show ((false, check_critical_issues r, (0 : PyRat)).2.2) = (0 : PyRat) from rfl,
        PyRat.toRat_zero]
      norm_num
    · rcases hq : check_quality_issues r with ⟨qi, qs⟩
      have hb := check_quality_score_bounds r
      rw [hq] at hb
      obtain ⟨hq1, hq2, hq3⟩ := hb
      dsimp only at hq1 hq2 hq3 ⊢
      have hbq_den : 0 < ((dictGetD r.confidence_scores "overall" 0.8) * qs).den :=
        PyRat.den_pos_mul hbase_den hq1
      rw [PyRat.toRat_min _ _ hbq_den (by decide), PyRat.toRat_mul, PyRat.toRat_one]
      constructor
      · exact le_min (mul_nonneg hbase_nn hq2) zero_le_one
      · exact min_le_right _ _

/-- C4 amended witness: a recipe with a critical issue returns exactly
`(False, critical, 0)`, and the sample recipe's confidence is in `[0, 1]`. -/
theorem validator_critical_zero_and_bounds_witness :
    (check_critical_issues badTitleRecipe ≠ [] ∧
      validate_recipe badTitleRecipe = (false, check_critical_issues badTitleRecipe, 0)) ∧
    (0 ≤ (validate_recipe sampleRecipe).2.2.toRat ∧
      (validate_recipe sampleRecipe).2.2.toRat ≤ 1) :=
  ⟨⟨by decide,
    (validator_critical_zero_and_bounds_amended badTitleRecipe (by decide)
      (PyRat.toRat_nonneg _ (by decide) (by decide))).1 (by decide)⟩,
    (validator_critical_zero_and_bounds_amended sampleRecipe (by decide)
      (PyRat.toRat_nonneg _ (by decide) (by decide))).2⟩

/-- C5 counterexample: a recipe with zero critical issues whose quality
heuristics push the confidence below 0.75 is returned with
`is_valid = False`. -/
theorem quality_issues_invalidate_counterexample :
    check_critical_issues sampleRecipe = [] ∧
    (validate_recipe sampleRecipe).1 = false := by decide

/-- C5 amended: with no critical issues, `is_valid` is not constantly
`True`: it is `True` exactly when the final confidence reaches 0.75 and at
most 3 quality issues were collected — quality issues depress the
confidence and can therefore flip `is_valid` to `False` through this
threshold. -/
theorem validator_validity_threshold_amended (r : ParsedRecipe)
    (hcrit : check_critical_issues r = []) :
    (validate_recipe r).1 = true ↔
      ¬((validate_recipe r).2.2 < 0.75 ∨ (validate_recipe r).2.1.length > 3) := by
  unfold validate_recipe
  dsimp only
  rw [if_neg (by simp [hcrit])]
  rcases hq : check_quality_issues r with ⟨qi, qs⟩
  dsimp only
  simp

/-- C5 amended witness: the sample recipe has no critical issues and its
validity is exactly the threshold condition. -/
theorem validator_validity_threshold_witness :
    check_critical_issues sampleRecipe = [] ∧
    ((validate_recipe sampleRecipe).1 = true ↔
      ¬((validate_recipe sampleRecipe).2.2 < 0.75 ∨
        (validate_recipe sampleRecipe).2.1.length > 3)) :=
  ⟨by decide, validator_validity_threshold_amended sampleRecipe (by decide)⟩

/-- C6: a persisted fingerprint for `stored` plus identical normalized
title, normalized cuisine and total time makes the new recipe's
fingerprint hash identical, and `check_duplicates` reports
`(True, stored_id, [])`; the normalization strips the filler words of the
two scenario titles down to the same string. -/
theorem fingerprint_exact_duplicate (db : List FingerprintRecord)
    (sim : String → String → PyRat) (stored r : ParsedRecipe) (storedId : String)
    (hfirst : (db.filter fun rec =>
        rec.fingerprint_hash == generate_fingerprint stored).head? =
      some (fingerprint_row storedId stored))
    (htitle : normalize_text r.title = normalize_text stored.title)
    (hcuisine : normalize_text r.cuisine = normalize_text stored.cuisine)
    (htime : r.total_time_minutes = stored.total_time_minutes) :
    generate_fingerprint r = generate_fingerprint stored ∧
    check_duplicates (tableOracle db) sim r = (true, some storedId, []) ∧
    normalize_text "Easy Tomato Pasta" = "tomato pasta" ∧
    normalize_text "Tomato Pasta Easy Recipe" = "tomato pasta" := by
  have hfp : generate_fingerprint r = generate_fingerprint stored := by
    unfold generate_fingerprint
    rw [htitle, hcuisine, htime]
  refine ⟨hfp, ?_, by decide, by decide⟩
  unfold check_duplicates
  rw [hfp]
  rcases hl : db.filter (fun rec =>
      rec.fingerprint_hash == generate_fingerprint stored) with _ | ⟨rec0, rest⟩
  · rw [hl] at hfirst
    simp at hfirst
  · rw [hl] at hfirst
    simp only [List.head?_cons, Option.some.injEq] at hfirst
    subst hfirst
    simp only [find_exact_duplicate, tableOracle, hl, fingerprint_row]

/-- C6 witness: the two scenario recipes (same cuisine, same total time,
titles differing by the filler words "easy"/"recipe") collide on the
fingerprint, and the second is reported as an exact duplicate of the
persisted first. -/
theorem fingerprint_exact_duplicate_witness :
    ([fingerprint_row "tomato-1" tomatoPastaEasyRecipe].filter fun rec =>
        rec.fingerprint_hash == generate_fingerprint tomatoPastaEasyRecipe).head? =
      some (fingerprint_row "tomato-1" tomatoPastaEasyRecipe) ∧
    normalize_text easyTomatoPasta.title =
      normalize_text tomatoPastaEasyRecipe.title ∧
    generate_fingerprint easyTomatoPasta =
      generate_fingerprint tomatoPastaEasyRecipe ∧
    check_duplicates (tableOracle [fingerprint_row "tomato-1" tomatoPastaEasyRecipe])
      basic_similarity easyTomatoPasta = (true, some "tomato-1", []) :=
  ⟨by decide, by decide,
    (fingerprint_exact_duplicate [fingerprint_row "tomato-1" tomatoPastaEasyRecipe]
      basic_similarity tomatoPastaEasyRecipe easyTomatoPasta "tomato-1"
      (by decide) (by decide) (by decide) (by decide)).1,
    (fingerprint_exact_duplicate [fingerprint_row "tomato-1" tomatoPastaEasyRecipe]
      basic_similarity tomatoPastaEasyRecipe easyTomatoPasta "tomato-1"
      (by decide) (by decide) (by decide) (by decide)).2.1⟩

/-- C7 counterexample: the deduplicator's fetch window is ±15 minutes, not
±10: a candidate 12 minutes away (42 vs 30) is fetched and reported among
`similar_ids`, which the claimed ±10 window would exclude. -/
theorem similarity_window_counterexample :
    time_tolerance_minutes = 15 ∧
    easyTomatoPasta.total_time_minutes = 30 ∧
    nearbyFingerprint.total_time_minutes = 42 ∧
    ¬(nearbyFingerprint.total_time_minutes - easyTomatoPasta.total_time_minutes ≤ 10) ∧
    check_duplicates (tableOracle [nearbyFingerprint]) basic_similarity
      easyTomatoPasta = (false, none, ["r1"]) := by decide

/-- C7 amended: with no exact fingerprint match, `similar_ids` are exactly
the candidates whose normalized cuisine matches and whose total time lies
within a ±15-minute window (clamped below at 0) and whose title similarity
reaches the 0.85 threshold; `is_duplicate` stays `False`. -/
theorem similar_candidates_window_amended (db : List FingerprintRecord)
    (sim : String → String → PyRat) (r : ParsedRecipe)
    (hnoexact : db.filter (fun rec =>
      rec.fingerprint_hash == generate_fingerprint r) = []) :
    check_duplicates (tableOracle db) sim r =
      (false, none,
        ((db.filter fun rec =>
            rec.cuisine_normalized == normalize_text r.cuisine &&
            decide (max 0 (r.total_time_minutes - 15) ≤ rec.total_time_minutes) &&
            decide (rec.total_time_minutes ≤ r.total_time_minutes + 15)).filter
          fun c => sim (normalize_text r.title) c.title_normalized ≥
            similarity_threshold).map fun c => c.recipe_id) := by
  unfold check_duplicates find_exact_duplicate
  simp only [tableOracle, hnoexact]
  unfold find_similar_recipe_ids
  simp only [tableOracle, time_tolerance_minutes]

/-- C7 amended witness: the candidate 12 minutes away is exactly what the
±15 window keeps (with an identical normalized title, similarity 1). -/
theorem similar_candidates_window_witness :
    ([nearbyFingerprint].filter fun rec =>
      rec.fingerprint_hash == generate_fingerprint easyTomatoPasta) = [] ∧
    check_duplicates (tableOracle [nearbyFingerprint]) basic_similarity
      easyTomatoPasta =
      (false, none,
        (([nearbyFingerprint].filter fun rec =>
            rec.cuisine_normalized == normalize_text easyTomatoPasta.cuisine &&
            decide (max 0 (easyTomatoPasta.total_time_minutes - 15) ≤
              rec.total_time_minutes) &&
            decide (rec.total_time_minutes ≤
              easyTomatoPasta.total_time_minutes + 15)).filter
          fun c => basic_similarity (normalize_text easyTomatoPasta.title)
            c.title_normalized ≥ similarity_threshold).map fun c => c.recipe_id) :=
  ⟨by decide,
    similar_candidates_window_amended [nearbyFingerprint] basic_similarity
      easyTomatoPasta (by decide)⟩

/-- C8: a NEEDS_REVIEW outcome never moves the file and stores issues,
similar ids and the full parsed-recipe snapshot in the job's meta; within
the pipeline only COMPLETED and COMPLETED_DUPLICATE move the file (to
`processed`), and within error handling only DLQ moves it (to `dlq`). -/
theorem needs_review_keeps_file (o : DedupeOracle) (sim : String → String → PyRat)
    (r : ParsedRecipe) (job : Job) (e : String) :
    ((process_file_outcome o sim r).status = .NEEDS_REVIEW →
      (process_file_outcome o sim r).fileMove = none ∧
      (process_file_outcome o sim r).meta =
        some ⟨(validate_recipe r).2.1, (check_duplicates o sim r).2.2, r⟩) ∧
    ((process_file_outcome o sim r).fileMove ≠ none →
      (process_file_outcome o sim r).status = .COMPLETED ∨
      (process_file_outcome o sim r).status = .COMPLETED_DUPLICATE) ∧
    ((handle_processing_error job e).2 ≠ none →
      (handle_processing_error job e).1.status = .DLQ ∧
      (handle_processing_error job e).2 = some .dlq) := by
  rcases hv : validate_recipe r with ⟨v, iss, conf⟩
  rcases hd : check_duplicates o sim r with ⟨dup, dupId, sims⟩
  unfold process_file_outcome
  rw [hv, hd]
  dsimp only
  refine ⟨?_, ?_, ?_⟩
  · intro hst
    split_ifs at hst ⊢
    all_goals simp_all
  · intro hmv
    split_ifs at hmv ⊢
    all_goals simp_all
  · intro hmv
    unfold handle_processing_error at hmv ⊢
    split_ifs at hmv ⊢
    · simp_all
    · simp_all

/-- C8 witness: the sample recipe is routed to NEEDS_REVIEW with its file
left in place and meta populated; a failure at the retry cap moves the
file to `dlq`. -/
theorem needs_review_keeps_file_witness :
    (process_file_outcome (tableOracle []) basic_similarity sampleRecipe).status =
      .NEEDS_REVIEW ∧
    (process_file_outcome (tableOracle []) basic_similarity sampleRecipe).fileMove =
      none ∧
    (process_file_outcome (tableOracle []) basic_similarity sampleRecipe).meta =
      some ⟨(validate_recipe sampleRecipe).2.1,
        (check_duplicates (tableOracle []) basic_similarity sampleRecipe).2.2,
        sampleRecipe⟩ ∧
    (handle_processing_error jobAtCap "boom").2 ≠ none ∧
    (handle_processing_error jobAtCap "boom").1.status = .DLQ :=
  ⟨by decide,
    ((needs_review_keeps_file (tableOracle []) basic_similarity sampleRecipe
      jobAtCap "boom").1 (by decide)).1,
    ((needs_review_keeps_file (tableOracle []) basic_similarity sampleRecipe
      jobAtCap "boom").1 (by decide)).2,
    by decide,
    ((needs_review_keeps_file (tableOracle []) basic_similarity sampleRecipe
      jobAtCap "boom").2.2 (by decide)).1⟩

/-- The cache loader is idempotent: a second load keeps the caches. -/
theorem load_caches_idem (db : IngredientDB) (s : MatcherCaches) :
    load_caches db (load_caches db s) = load_caches db s := by
  simp [load_caches]

/-- C9: `process_ingredients` run twice on the same list from the same
database yields the identical output rows and cache state — the only state
change is filling the read-only caches on first use. -/
theorem process_ingredients_idempotent (db : IngredientDB) (s : MatcherCaches)
    (l : List ParsedIngredient) :
    (process_ingredients db (process_ingredients db s l).1 l).2 =
      (process_ingredients db s l).2 ∧
    (process_ingredients db (process_ingredients db s l).1 l).1 =
      (process_ingredients db s l).1 := by
  unfold process_ingredients
  dsimp only
  rw [load_caches_idem]
  exact ⟨rfl, rfl⟩

/-- C10 counterexample: when the exact-duplicate lookup raises but the
similar-recipe fetch succeeds, `check_duplicates` returns the similar ids
rather than `(False, None, [])`. -/
theorem dedupe_failure_counterexample :
    failingExactOracle.find_duplicate_recipes
      (generate_fingerprint easyTomatoPasta) = .error "db down" ∧
    check_duplicates failingExactOracle basic_similarity easyTomatoPasta =
      (false, none, ["r1"]) ∧
    check_duplicates failingExactOracle basic_similarity easyTomatoPasta ≠
      (false, none, []) := by
  refine ⟨rfl, by decide, by decide⟩

/-- C10 amended: `check_duplicates` is total and never propagates an
oracle failure: a failed exact lookup degrades to "no exact duplicate"
(similar detection still runs, so a genuine duplicate is admitted as new),
a failed similar fetch degrades to no similar ids, and when both fail the
result is exactly `(False, None, [])` — a failure can therefore never
route the job to the retry/DLQ path. -/
theorem dedupe_degrades_on_failure_amended (o : DedupeOracle)
    (sim : String → String → PyRat) (r : ParsedRecipe) :
    (∀ e, o.find_duplicate_recipes (generate_fingerprint r) = .error e →
      (check_duplicates o sim r).1 = false ∧
      (check_duplicates o sim r).2.1 = none) ∧
    (∀ e, o.find_similar_recipes (normalize_text r.title)
        (normalize_text r.cuisine) r.total_time_minutes time_tolerance_minutes =
        .error e →
      (check_duplicates o sim r).2.2 = []) ∧
    (∀ e e', o.find_duplicate_recipes (generate_fingerprint r) = .error e →
      o.find_similar_recipes (normalize_text r.title) (normalize_text r.cuisine)
        r.total_time_minutes time_tolerance_minutes = .error e' →
      check_duplicates o sim r = (false, none, [])) := by
  refine ⟨?_, ?_, ?_⟩
  · intro e he
    unfold check_duplicates find_exact_duplicate
    rw [he]
    exact ⟨rfl, rfl⟩
  · intro e he
    unfold check_duplicates find_exact_duplicate find_similar_recipe_ids
    dsimp only
    rw [he]
    rcases o.find_duplicate_recipes (generate_fingerprint r) with e0 | (_ | ⟨rec0, rest⟩) <;>
      rfl
  · intro e e' he he'
    unfold check_duplicates find_exact_duplicate find_similar_recipe_ids
    dsimp only
    rw [he, he']

/-- C10 amended witness: with both lookups failing, the result is exactly
`(False, None, [])`. -/
theorem dedupe_degrades_on_failure_witness :
    failingBothOracle.find_duplicate_recipes
      (generate_fingerprint sampleRecipe) = .error "db down" ∧
    failingBothOracle.find_similar_recipes (normalize_text sampleRecipe.title)
      (normalize_text sampleRecipe.cuisine) sampleRecipe.total_time_minutes
      time_tolerance_minutes = .error "db down" ∧
    check_duplicates failingBothOracle basic_similarity sampleRecipe =
      (false, none, []) :=
  ⟨rfl, rfl,
    (dedupe_degrades_on_failure_amended failingBothOracle basic_similarity
      sampleRecipe).2.2 "db down" "db down" rfl rfl⟩

end Ingestion
